import Mathlib

/-!
Shallow embedding of the 175-project repository: five shell scripts that
invoke the cleanrl training entry points with pruning flags, and the
notebook cells that compute sparsity statistics and call the external
evaluation function.  Each script is translated statement by statement
from its source into a small shell language, and the notebook cells into
Lean functions over lists of rationals.
-/

namespace Proj

/-- A statement of the shell scripts.  The scripts consist only of `echo`
lines and blocking external invocations; `call` records the argv and
whether the invocation is backgrounded (`&`), and `exitIfFailed` models
the error-handling statement (abort when the last exit code is nonzero)
that bash offers but these scripts never use. -/
inductive Stmt where
  | echo (s : String)
  | call (args : List String) (bg : Bool)
  | exitIfFailed
deriving DecidableEq

/-- An observable event of a script execution: a printed line or the
launch of an external process with its argv. -/
inductive Ev where
  | line (s : String)
  | proc (args : List String)
deriving DecidableEq

/-- Shell variable `path_to_poetry`, shared by all five scripts. -/
def path_to_poetry : String := "/home/omar/miniconda3/envs/175-env/bin/poetry"

/-- Shell variable `env`, shared by all five scripts. -/
def env : String := "SpaceInvadersNoFrameskip-v4"

end Proj

namespace BaselineSh

/-- `run_python_command` of `scripts/baseline.sh`: DQN training with no
positional parameters. -/
def run_python_command : List String :=
  [Proj.path_to_poetry, "run", "python", "cleanrl/dqn_atari.py",
   "--env-id", Proj.env, "--capture_video",
   "--buffer_size", "100000", "--save_model", "--track"]

/-- The statement list of `scripts/baseline.sh`. -/
def script : List Proj.Stmt :=
  [.echo "Creating baseline model",
   .echo "run_python_command",
   .call run_python_command false,
   .echo "Finished creating baseline model"]

end BaselineSh

namespace PpoL1Sh

/-- `run_python_command` of the PPO L1 sweep script: PPO training with
`$1` the experiment name and `$2` the pruning amount; no
`--prune_method` flag is passed. -/
def run_python_command (expName amount : String) : List String :=
  [Proj.path_to_poetry, "run", "python", "cleanrl/ppo_atari.py",
   "--exp_name", expName, "--env-id", Proj.env, "--capture_video",
   "--save_model", "--total_timesteps", "2000000", "--track",
   "--prune", "--prune_amount", amount]

/-- The (experiment name, pruning amount) pairs of the PPO L1 sweep, in
script order. -/
def sweep : List (String × String) :=
  [("Baseline", "0"), ("L1_0.1", "0.1"), ("L1_0.3", "0.3"), ("L1_0.5", "0.5")]

/-- The statement list of the PPO L1 sweep script. -/
def script : List Proj.Stmt :=
  [.echo "Starting Baseline",
   .echo "run_python_command",
   .call (run_python_command "Baseline" "0") false,
   .echo "Finished Baseline",
   .echo "Starting L1 0.1",
   .echo "run_python_command",
   .call (run_python_command "L1_0.1" "0.1") false,
   .echo "Finished L1 0.1",
   .echo "Starting L1 0.3",
   .echo "run_python_command",
   .call (run_python_command "L1_0.3" "0.3") false,
   .echo "Finished L1 0.3",
   .echo "Starting L1 0.5",
   .echo "run_python_command",
   .call (run_python_command "L1_0.5" "0.5") false,
   .echo "Finished L1 0.5"]

end PpoL1Sh

namespace DqnRandomSh

/-- `run_python_command` of the DQN random-pruning sweep script: DQN
training with `$1` the experiment name and `$2` the pruning amount. -/
def run_python_command (expName amount : String) : List String :=
  [Proj.path_to_poetry, "run", "python", "cleanrl/dqn_atari.py",
   "--exp_name", expName, "--env-id", Proj.env, "--capture_video",
   "--buffer_size", "100000", "--save_model",
   "--total_timesteps", "2000000", "--track",
   "--prune", "--prune_method", "random", "--prune_amount", amount]

/-- The (experiment name, pruning amount) pairs of the DQN random sweep,
in script order (the Baseline block of the source is commented out). -/
def sweep : List (String × String) :=
  [("R_0.05", "0.05"), ("R_0.1", "0.1"), ("R_0.3", "0.3"),
   ("R_0.5", "0.5"), ("R_0.8", "0.8")]

/-- The statement list of the DQN random sweep script.  Note the finish
marker after the 0.05 run reads `Finished R 0.01` in the source. -/
def script : List Proj.Stmt :=
  [.echo "Starting R 0.05",
   .echo "run_python_command",
   .call (run_python_command "R_0.05" "0.05") false,
   .echo "Finished R 0.01",
   .echo "Starting R 0.1",
   .echo "run_python_command",
   .call (run_python_command "R_0.1" "0.1") false,
   .echo "Finished R 0.1",
   .echo "Starting R 0.3",
   .echo "run_python_command",
   .call (run_python_command "R_0.3" "0.3") false,
   .echo "Finished R 0.3",
   .echo "Starting R 0.5",
   .echo "run_python_command",
   .call (run_python_command "R_0.5" "0.5") false,
   .echo "Finished R 0.5",
   .echo "Starting R 0.8",
   .echo "run_python_command",
   .call (run_python_command "R_0.8" "0.8") false,
   .echo "Finished R 0.8"]

end DqnRandomSh

namespace PpoRandomTestSh

/-- `run_python_command` of `src/scripts/ppo/random_test.sh`: PPO
training with `$1` the experiment name and `$2` the pruning amount. -/
def run_python_command (expName amount : String) : List String :=
  [Proj.path_to_poetry, "run", "python", "cleanrl/ppo_atari.py",
   "--exp_name", expName, "--env-id", Proj.env, "--capture_video",
   "--total_timesteps", "2000000", "--track",
   "--prune", "--prune_amount", amount, "--prune_method", "random",
   "--save_model"]

/-- The (experiment name, pruning amount) pairs of the PPO random sweep,
in script order. -/
def sweep : List (String × String) :=
  [("ppo_R_0.1", "0.1"), ("ppo_R_0.3", "0.3"), ("ppo_R_0.5", "0.5")]

/-- The statement list of `src/scripts/ppo/random_test.sh`. -/
def script : List Proj.Stmt :=
  [.echo "Starting R 0.1",
   .echo "run_python_command",
   .call (run_python_command "ppo_R_0.1" "0.1") false,
   .echo "Finished R 0.1",
   .echo "Starting R 0.3",
   .echo "run_python_command",
   .call (run_python_command "ppo_R_0.3" "0.3") false,
   .echo "Finished R 0.3",
   .echo "Starting R 0.5",
   .echo "run_python_command",
   .call (run_python_command "ppo_R_0.5" "0.5") false,
   .echo "Finished R 0.5"]

end PpoRandomTestSh

namespace PpoSanitySh

/-- `run_python_command` of the PPO sanity script: like the PPO random
sweep but with a 10000 timestep budget. -/
def run_python_command (expName amount : String) : List String :=
  [Proj.path_to_poetry, "run", "python", "cleanrl/ppo_atari.py",
   "--exp_name", expName, "--env-id", Proj.env, "--capture_video",
   "--total_timesteps", "10000", "--track",
   "--prune", "--prune_amount", amount, "--prune_method", "random",
   "--save_model"]

/-- The single (experiment name, pruning amount) pair of the sanity
script. -/
def sweep : List (String × String) := [("ppo_sanity", "0.1")]

/-- The statement list of the PPO sanity script. -/
def script : List Proj.Stmt :=
  [.echo "Starting L1 0.1",
   .echo "run_python_command",
   .call (run_python_command "ppo_sanity" "0.1") false,
   .echo "Finished L1 0.1"]

end PpoSanitySh

namespace Proj

/-- All five shell scripts of the repository. -/
def allScripts : List (List Stmt) :=
  [BaselineSh.script, PpoL1Sh.script, DqnRandomSh.script,
   PpoRandomTestSh.script, PpoSanitySh.script]

/-- The argvs of the external invocations of a script, in order. -/
def callsOf (stmts : List Stmt) : List (List String) :=
  stmts.filterMap fun s =>
    match s with
    | .call args _ => some args
    | _ => none

/-- The command-line flags of an argv: the entries starting with
a double dash. -/
def flagsOf (args : List String) : List String :=
  args.filter fun a => a.data.take 2 == ['-', '-']

/-- The flag set named by the spec for the training entry point. -/
def allowedFlags : List String :=
  ["--exp_name", "--env-id", "--capture_video", "--buffer_size",
   "--save_model", "--total_timesteps", "--track", "--prune",
   "--prune_amount", "--prune_method"]

end Proj

namespace Proj

/-- The sweep blocks of a script: each maximal run of the form
`echo start; echo run_python_command; run_python_command args;
echo finish` yields the triple (start marker, argv, finish marker). -/
def blocksOf : List Stmt → List (String × List String × String)
  | .echo s :: .echo "run_python_command" :: .call args _ :: .echo f :: rest =>
      (s, args, f) :: blocksOf rest
  | _ :: rest => blocksOf rest
  | [] => []

/-- The point a marker names: the characters after the 9-character
`Starting ` or `Finished ` marker verb. -/
def markLabel (m : String) : List Char := m.data.drop 9

/-- A sweep script is well formed for a given sweep list when its blocks
invoke exactly the sweep's command lines once each and in order, its
external invocations all lie inside blocks, and each block's start and
finish markers carry the `Starting `/`Finished ` verbs and name the same
sweep point. -/
def sweepOk (stmts : List Stmt) (cmd : String → String → List String)
    (sweep : List (String × String)) : Bool :=
  decide ((blocksOf stmts).map (fun b => b.2.1)
      = sweep.map (fun p => cmd p.1 p.2))
  && decide (callsOf stmts = (blocksOf stmts).map (fun b => b.2.1))
  && (blocksOf stmts).all fun b =>
      b.1.data.take 9 == "Starting ".data
      && (b.2.2).data.take 9 == "Finished ".data
      && markLabel b.1 == markLabel b.2.2

/-- Claim C2 as stated, over the four parameterized sweep scripts. -/
def claimSweepMarkers : Bool :=
  sweepOk PpoL1Sh.script PpoL1Sh.run_python_command PpoL1Sh.sweep
  && sweepOk DqnRandomSh.script DqnRandomSh.run_python_command DqnRandomSh.sweep
  && sweepOk PpoRandomTestSh.script PpoRandomTestSh.run_python_command
      PpoRandomTestSh.sweep
  && sweepOk PpoSanitySh.script PpoSanitySh.run_python_command PpoSanitySh.sweep

end Proj

/-- C1: every flag of every external training command line of every
script belongs to the spec's flag set, and every flag of that set occurs
in at least one script's command line. -/
theorem flag_surface_matches_spec :
    (Proj.allScripts.all fun s =>
      (Proj.callsOf s).all fun args =>
        (Proj.flagsOf args).all fun f => Proj.allowedFlags.contains f) = true
    ∧ (Proj.allowedFlags.all fun f =>
        Proj.allScripts.any fun s =>
          (Proj.callsOf s).any fun args => args.contains f) = true := by
  decide

/-- C2 counterexample: the sweep-marker claim fails on the DQN random
sweep script, whose first block starts with the marker naming the 0.05
point but finishes with a marker naming 0.01. -/
theorem sweep_markers_counterexample :
    Proj.claimSweepMarkers = false
    ∧ Proj.sweepOk DqnRandomSh.script DqnRandomSh.run_python_command
        DqnRandomSh.sweep = false
    ∧ (Proj.blocksOf DqnRandomSh.script).getD 0 ("", [], "")
        = ("Starting R 0.05", DqnRandomSh.run_python_command "R_0.05" "0.05",
           "Finished R 0.01") := by
  decide

/-- C2 amended: every sweep script calls the training program exactly
once per sweep pair, in order, bracketed by start and finish markers;
the markers name the same sweep point in every block of every script
except the first block of the DQN random sweep script, whose start
marker names 0.05 while its finish marker names 0.01. -/
theorem sweep_markers_amended :
    Proj.sweepOk PpoL1Sh.script PpoL1Sh.run_python_command PpoL1Sh.sweep = true
    ∧ Proj.sweepOk PpoRandomTestSh.script PpoRandomTestSh.run_python_command
        PpoRandomTestSh.sweep = true
    ∧ Proj.sweepOk PpoSanitySh.script PpoSanitySh.run_python_command
        PpoSanitySh.sweep = true
    ∧ (Proj.blocksOf DqnRandomSh.script).map (fun b => b.2.1)
        = DqnRandomSh.sweep.map
            (fun p => DqnRandomSh.run_python_command p.1 p.2)
    ∧ Proj.callsOf DqnRandomSh.script
        = (Proj.blocksOf DqnRandomSh.script).map (fun b => b.2.1)
    ∧ ((Proj.blocksOf DqnRandomSh.script).all fun b =>
        b.1.data.take 9 == "Starting ".data
        && (b.2.2).data.take 9 == "Finished ".data) = true
    ∧ (((Proj.blocksOf DqnRandomSh.script).drop 1).all fun b =>
        Proj.markLabel b.1 == Proj.markLabel b.2.2) = true
    ∧ (Proj.blocksOf DqnRandomSh.script).getD 0 ("", [], "")
        = ("Starting R 0.05", DqnRandomSh.run_python_command "R_0.05" "0.05",
           "Finished R 0.01") := by
  decide

/-- C9: in the DQN random sweep script, the block invoking the training
program with experiment name R_0.05 and pruning amount 0.05 is preceded
by the marker `Starting R 0.05` and followed by the marker
`Finished R 0.01`, which name different points. -/
theorem dqn_random_mismatched_marker :
    ((Proj.blocksOf DqnRandomSh.script).filter
        (fun b => b.2.1 = DqnRandomSh.run_python_command "R_0.05" "0.05"))
      = [("Starting R 0.05", DqnRandomSh.run_python_command "R_0.05" "0.05",
          "Finished R 0.01")]
    ∧ Proj.markLabel "Starting R 0.05" ≠ Proj.markLabel "Finished R 0.01" := by
  decide

namespace Proj

/-- Claim C4 as stated: every script invokes the external training
program more than once. -/
def claimEveryScriptMultiRun : Bool :=
  allScripts.all fun s => decide (1 < (callsOf s).length)

end Proj

/-- C4 counterexample: `scripts/baseline.sh` invokes the external
training program exactly once, so not every script invokes it more than
once. -/
theorem multi_run_counterexample :
    Proj.claimEveryScriptMultiRun = false
    ∧ (Proj.callsOf BaselineSh.script).length = 1 := by
  decide

/-- C4 amended: every shell script invokes the external training
program at least once sequentially; the three sweep scripts invoke it
more than once (3, 4 and 5 times), while the baseline and sanity
scripts invoke it exactly once. -/
theorem scripts_invoke_training :
    (Proj.allScripts.all fun s => decide (1 ≤ (Proj.callsOf s).length)) = true
    ∧ (Proj.callsOf PpoRandomTestSh.script).length = 3
    ∧ (Proj.callsOf PpoL1Sh.script).length = 4
    ∧ (Proj.callsOf DqnRandomSh.script).length = 5
    ∧ (Proj.callsOf BaselineSh.script).length = 1
    ∧ (Proj.callsOf PpoSanitySh.script).length = 1 := by
  decide

namespace Proj

/-- Two argvs differ only at the listed positions: they have the same
length and agree everywhere else. -/
def differOnlyAt (xs ys : List String) (allowed : List Nat) : Bool :=
  xs.length == ys.length
  && (List.range xs.length).all fun i =>
      xs.getD i "" == ys.getD i "" || allowed.contains i

/-- Every pair of invocations of a sweep differs only at the listed
argv positions. -/
def sweepVariesOnlyAt (cmd : String → String → List String)
    (sweep : List (String × String)) (allowed : List Nat) : Bool :=
  sweep.all fun p => sweep.all fun q =>
    differOnlyAt (cmd p.1 p.2) (cmd q.1 q.2) allowed

end Proj

/-- C5: within each sweep script, any two invocations of the training
program differ only at the argv position holding the experiment name
(the value after `--exp_name`) and the one holding the pruning amount
(the value after `--prune_amount`); every other flag and value is
identical across the script's invocations. -/
theorem sweep_varies_only_name_amount :
    Proj.sweepVariesOnlyAt PpoL1Sh.run_python_command PpoL1Sh.sweep [5, 15] = true
    ∧ (PpoL1Sh.run_python_command "E" "A").getD 4 "" = "--exp_name"
    ∧ (PpoL1Sh.run_python_command "E" "A").getD 5 "" = "E"
    ∧ (PpoL1Sh.run_python_command "E" "A").getD 14 "" = "--prune_amount"
    ∧ (PpoL1Sh.run_python_command "E" "A").getD 15 "" = "A"
    ∧ Proj.sweepVariesOnlyAt DqnRandomSh.run_python_command
        DqnRandomSh.sweep [5, 19] = true
    ∧ (DqnRandomSh.run_python_command "E" "A").getD 4 "" = "--exp_name"
    ∧ (DqnRandomSh.run_python_command "E" "A").getD 5 "" = "E"
    ∧ (DqnRandomSh.run_python_command "E" "A").getD 18 "" = "--prune_amount"
    ∧ (DqnRandomSh.run_python_command "E" "A").getD 19 "" = "A"
    ∧ Proj.sweepVariesOnlyAt PpoRandomTestSh.run_python_command
        PpoRandomTestSh.sweep [5, 14] = true
    ∧ (PpoRandomTestSh.run_python_command "E" "A").getD 4 "" = "--exp_name"
    ∧ (PpoRandomTestSh.run_python_command "E" "A").getD 5 "" = "E"
    ∧ (PpoRandomTestSh.run_python_command "E" "A").getD 13 "" = "--prune_amount"
    ∧ (PpoRandomTestSh.run_python_command "E" "A").getD 14 "" = "A"
    ∧ Proj.sweepVariesOnlyAt PpoSanitySh.run_python_command
        PpoSanitySh.sweep [5, 14] = true
    ∧ Proj.callsOf PpoL1Sh.script
        = PpoL1Sh.sweep.map (fun p => PpoL1Sh.run_python_command p.1 p.2)
    ∧ Proj.callsOf DqnRandomSh.script
        = DqnRandomSh.sweep.map (fun p => DqnRandomSh.run_python_command p.1 p.2)
    ∧ Proj.callsOf PpoRandomTestSh.script
        = PpoRandomTestSh.sweep.map
            (fun p => PpoRandomTestSh.run_python_command p.1 p.2)
    ∧ Proj.callsOf PpoSanitySh.script
        = PpoSanitySh.sweep.map
            (fun p => PpoSanitySh.run_python_command p.1 p.2) := by
  decide

/-- C10: in the PPO L1 sweep script the run labeled Baseline is invoked
with the `--prune` flag and with `--prune_amount 0`, and no invocation
of that script passes a `--prune_method` flag. -/
theorem l1_baseline_prunes_no_method :
    (Proj.callsOf PpoL1Sh.script).getD 0 []
      = PpoL1Sh.run_python_command "Baseline" "0"
    ∧ (PpoL1Sh.run_python_command "Baseline" "0").contains "--prune" = true
    ∧ (PpoL1Sh.run_python_command "Baseline" "0").getD 14 "" = "--prune_amount"
    ∧ (PpoL1Sh.run_python_command "Baseline" "0").getD 15 "" = "0"
    ∧ ((Proj.callsOf PpoL1Sh.script).all
        fun args => !args.contains "--prune_method") = true := by
  decide

namespace Proj

/-- Execution of a script given an oracle `ec` assigning an exit code to
each external invocation: echoes print, calls launch the process and
record its exit code as the last one, and `exitIfFailed` aborts the
script when the last exit code is nonzero. -/
def exec : List Stmt → (Nat → Int) → Nat → Int → List Ev
  | [], _, _, _ => []
  | .echo s :: rest, ec, n, last => .line s :: exec rest ec n last
  | .call args _ :: rest, ec, n, _ => .proc args :: exec rest ec (n + 1) (ec n)
  | .exitIfFailed :: rest, ec, n, last =>
      if last = 0 then exec rest ec n last else []

/-- The trace of a script that never reacts to exit codes. -/
def straightTrace : List Stmt → List Ev
  | [] => []
  | .echo s :: rest => .line s :: straightTrace rest
  | .call args _ :: rest => .proc args :: straightTrace rest
  | .exitIfFailed :: rest => straightTrace rest

/-- A script inspects no exit code: it contains no `exitIfFailed`. -/
def noExitCheck (stmts : List Stmt) : Bool :=
  stmts.all fun st =>
    match st with
    | .exitIfFailed => false
    | _ => true

/-- The argvs of the processes launched in a trace, in order. -/
def procsOf (evs : List Ev) : List (List String) :=
  evs.filterMap fun e =>
    match e with
    | .proc a => some a
    | _ => none

/-- Scheduling semantics for a duration oracle `d`: each external
invocation `k` occupies the time interval from its start to start plus
`d k + 1`; a blocking call advances the clock to its end, a
backgrounded call leaves the clock at its start. -/
def sched : List Stmt → (Nat → Nat) → Nat → Nat → List (List String × Nat × Nat)
  | [], _, _, _ => []
  | .echo _ :: rest, d, n, t => sched rest d n t
  | .call args bg :: rest, d, n, t =>
      (args, t, t + d n + 1) ::
        sched rest d (n + 1) (if bg then t else t + d n + 1)
  | .exitIfFailed :: rest, d, n, t => sched rest d n t

/-- A script backgrounds no external invocation. -/
def noBackground (stmts : List Stmt) : Bool :=
  stmts.all fun st =>
    match st with
    | .call _ bg => !bg
    | _ => true

end Proj

theorem exec_eq_straightTrace (stmts : List Proj.Stmt) :
    ∀ (ec : Nat → Int) (n : Nat) (last : Int),
      Proj.noExitCheck stmts = true →
      Proj.exec stmts ec n last = Proj.straightTrace stmts := by
  induction stmts with
  | nil => intro ec n last _; rfl
  | cons st rest ih =>
    intro ec n last h
    rw [Proj.noExitCheck, List.all_cons, Bool.and_eq_true] at h
    cases st with
    | echo s =>
        rw [Proj.exec, Proj.straightTrace, ih ec n last h.2]
    | call args bg =>
        rw [Proj.exec, Proj.straightTrace, ih ec (n + 1) (ec n) h.2]
    | exitIfFailed => exact absurd h.1 (by simp)

theorem sched_start_bound (stmts : List Proj.Stmt) :
    ∀ (d : Nat → Nat) (n t : Nat),
      Proj.noBackground stmts = true →
      ∀ e ∈ Proj.sched stmts d n t, t ≤ e.2.1 := by
  induction stmts with
  | nil => intro d n t _ e he; rw [Proj.sched] at he; exact absurd he (by simp)
  | cons st rest ih =>
    intro d n t h e he
    rw [Proj.noBackground, List.all_cons, Bool.and_eq_true] at h
    cases st with
    | echo s => exact ih d n t h.2 e (by rwa [Proj.sched] at he)
    | call args bg =>
        have hbg : bg = false := by simpa using h.1
        subst hbg
        rw [Proj.sched] at he
        simp only [if_neg Bool.false_ne_true, Bool.false_eq_true, if_false,
          List.mem_cons] at he
        rcases he with he | he
        · subst he; exact Nat.le_refl t
        · have := ih d (n + 1) (t + d n + 1) h.2 e he
          omega
    | exitIfFailed => exact ih d n t h.2 e (by rwa [Proj.sched] at he)

theorem sched_sequential (stmts : List Proj.Stmt) :
    ∀ (d : Nat → Nat) (n t : Nat),
      Proj.noBackground stmts = true →
      List.Chain' (fun a b => a.2.2 ≤ b.2.1) (Proj.sched stmts d n t) := by
  induction stmts with
  | nil => intro d n t _; rw [Proj.sched]; exact List.chain'_nil
  | cons st rest ih =>
    intro d n t h
    rw [Proj.noBackground, List.all_cons, Bool.and_eq_true] at h
    cases st with
    | echo s => rw [Proj.sched]; exact ih d n t h.2
    | call args bg =>
        have hbg : bg = false := by simpa using h.1
        subst hbg
        rw [Proj.sched]
        simp only [Bool.false_eq_true, if_false]
        refine List.chain'_cons'.mpr ⟨?_, ih d (n + 1) (t + d n + 1) h.2⟩
        intro b hb
        exact sched_start_bound rest d (n + 1) (t + d n + 1) h.2 b
          (List.mem_of_mem_head? hb)
    | exitIfFailed => rw [Proj.sched]; exact ih d n t h.2

theorem sched_runs_in_order (stmts : List Proj.Stmt) :
    ∀ (d : Nat → Nat) (n t : Nat),
      (Proj.sched stmts d n t).map (fun e => e.1) = Proj.callsOf stmts := by
  induction stmts with
  | nil => intro d n t; rfl
  | cons st rest ih =>
    intro d n t
    cases st with
    | echo s =>
        rw [Proj.sched, ih d n t]
        simp [Proj.callsOf, List.filterMap_cons]
    | call args bg =>
        rw [Proj.sched, List.map_cons, ih]
        simp [Proj.callsOf, List.filterMap_cons]
    | exitIfFailed =>
        rw [Proj.sched, ih d n t]
        simp [Proj.callsOf, List.filterMap_cons]

/-- C6: no script inspects exit codes, and for every assignment of exit
codes to the external runs (in particular, failing ones) each sweep
script produces the same trace and still launches every sweep point. -/
theorem failing_runs_do_not_stop_sweep :
    ∀ ec : Nat → Int,
      (Proj.allScripts.all Proj.noExitCheck) = true
      ∧ Proj.exec PpoL1Sh.script ec 0 0 = Proj.straightTrace PpoL1Sh.script
      ∧ Proj.procsOf (Proj.exec PpoL1Sh.script ec 0 0)
          = PpoL1Sh.sweep.map (fun p => PpoL1Sh.run_python_command p.1 p.2)
      ∧ Proj.exec DqnRandomSh.script ec 0 0
          = Proj.straightTrace DqnRandomSh.script
      ∧ Proj.procsOf (Proj.exec DqnRandomSh.script ec 0 0)
          = DqnRandomSh.sweep.map
              (fun p => DqnRandomSh.run_python_command p.1 p.2)
      ∧ Proj.exec PpoRandomTestSh.script ec 0 0
          = Proj.straightTrace PpoRandomTestSh.script
      ∧ Proj.procsOf (Proj.exec PpoRandomTestSh.script ec 0 0)
          = PpoRandomTestSh.sweep.map
              (fun p => PpoRandomTestSh.run_python_command p.1 p.2)
      ∧ Proj.exec PpoSanitySh.script ec 0 0
          = Proj.straightTrace PpoSanitySh.script
      ∧ Proj.procsOf (Proj.exec PpoSanitySh.script ec 0 0)
          = PpoSanitySh.sweep.map
              (fun p => PpoSanitySh.run_python_command p.1 p.2) := by
  intro ec
  have h1 := exec_eq_straightTrace PpoL1Sh.script ec 0 0 (by decide)
  have h2 := exec_eq_straightTrace DqnRandomSh.script ec 0 0 (by decide)
  have h3 := exec_eq_straightTrace PpoRandomTestSh.script ec 0 0 (by decide)
  have h4 := exec_eq_straightTrace PpoSanitySh.script ec 0 0 (by decide)
  refine ⟨by decide, h1, ?_, h2, ?_, h3, ?_, h4, ?_⟩
  · rw [h1]; decide
  · rw [h2]; decide
  · rw [h3]; decide
  · rw [h4]; decide

/-- C6 witness: instantiating the exit-code oracle so that every run
fails with code 1 still launches every sweep point of the PPO L1
script. -/
theorem failing_runs_witness :
    Proj.procsOf (Proj.exec PpoL1Sh.script (fun _ => 1) 0 0)
      = PpoL1Sh.sweep.map (fun p => PpoL1Sh.run_python_command p.1 p.2) :=
  (failing_runs_do_not_stop_sweep (fun _ => 1)).2.2.1

/-- C7: no script backgrounds an external invocation, and for every
assignment of durations to the runs, the time intervals of each
script's runs are sequential — each run ends no later than the next one
starts — and the runs occur in script order. -/
theorem one_run_at_a_time :
    ∀ d : Nat → Nat,
      (Proj.allScripts.all Proj.noBackground) = true
      ∧ List.Chain' (fun a b => a.2.2 ≤ b.2.1)
          (Proj.sched BaselineSh.script d 0 0)
      ∧ List.Chain' (fun a b => a.2.2 ≤ b.2.1)
          (Proj.sched PpoL1Sh.script d 0 0)
      ∧ List.Chain' (fun a b => a.2.2 ≤ b.2.1)
          (Proj.sched DqnRandomSh.script d 0 0)
      ∧ List.Chain' (fun a b => a.2.2 ≤ b.2.1)
          (Proj.sched PpoRandomTestSh.script d 0 0)
      ∧ List.Chain' (fun a b => a.2.2 ≤ b.2.1)
          (Proj.sched PpoSanitySh.script d 0 0)
      ∧ (Proj.sched BaselineSh.script d 0 0).map (fun e => e.1)
          = Proj.callsOf BaselineSh.script
      ∧ (Proj.sched PpoL1Sh.script d 0 0).map (fun e => e.1)
          = Proj.callsOf PpoL1Sh.script
      ∧ (Proj.sched DqnRandomSh.script d 0 0).map (fun e => e.1)
          = Proj.callsOf DqnRandomSh.script
      ∧ (Proj.sched PpoRandomTestSh.script d 0 0).map (fun e => e.1)
          = Proj.callsOf PpoRandomTestSh.script
      ∧ (Proj.sched PpoSanitySh.script d 0 0).map (fun e => e.1)
          = Proj.callsOf PpoSanitySh.script := by
  intro d
  exact ⟨by decide,
    sched_sequential BaselineSh.script d 0 0 (by decide),
    sched_sequential PpoL1Sh.script d 0 0 (by decide),
    sched_sequential DqnRandomSh.script d 0 0 (by decide),
    sched_sequential PpoRandomTestSh.script d 0 0 (by decide),
    sched_sequential PpoSanitySh.script d 0 0 (by decide),
    sched_runs_in_order BaselineSh.script d 0 0,
    sched_runs_in_order PpoL1Sh.script d 0 0,
    sched_runs_in_order DqnRandomSh.script d 0 0,
    sched_runs_in_order PpoRandomTestSh.script d 0 0,
    sched_runs_in_order PpoSanitySh.script d 0 0⟩

/-- C7 witness: with every run lasting 2 time units, the DQN random
sweep's run intervals are sequential. -/
theorem one_run_at_a_time_witness :
    List.Chain' (fun a b => a.2.2 ≤ b.2.1)
      (Proj.sched DqnRandomSh.script (fun _ => 1) 0 0) :=
  (one_run_at_a_time (fun _ => 1)).2.2.2.1

namespace Notebook

/-- The torch device of the notebook: cuda when available, else cpu. -/
inductive Device where
  | cpu
  | cuda
deriving DecidableEq

/-- `torch.device("cuda" if torch.cuda.is_available() else "cpu")`. -/
def notebookDevice (cudaAvailable : Bool) : Device :=
  if cudaAvailable then .cuda else .cpu

/-- The argument record of the external evaluation function as the
notebook calls it: model path, environment constructor, environment id,
episode count, run name, model class, device, exploration epsilon.  The
constructor-valued and class-valued arguments are represented by the
names of the notebook objects passed. -/
structure EvalCall where
  model_path : String
  make_env : String
  env_id : String
  eval_episodes : Nat
  run_name : String
  Model : String
  device : Device
  epsilon : Rat
deriving DecidableEq

/-- Notebook variable `model_path`. -/
def model_path : String := "models/0.5_sparsity_dqn.cleanrl_model"

/-- Notebook variable `env_id`. -/
def env_id : String := "SpaceInvadersNoFrameskip-v4"

/-- The notebook's single call to `evaluate`, with the device the
notebook computed from cuda availability. -/
def evaluateCall (cudaAvailable : Bool) : EvalCall :=
  ⟨model_path, "make_env", env_id, 5, "dqn_eval", "QNetwork",
   notebookDevice cudaAvailable, 0.05⟩

/-- The episodic returns the recorded notebook run printed for the five
evaluation episodes. -/
def episodic_returns : List Rat := [465, 435, 350, 700, 470]

/-- `sum(episodic_returns)/len(episodic_returns)` of the final cell. -/
def mean_episodic_return (rs : List Rat) : Rat :=
  rs.sum / (rs.length : Rat)

/-- A layer of `model.network` as the sparsity cell sees it: either an
`nn.Linear` with its weight entries, or any other module (conv,
activation, flatten) with its own parameters, which the cell ignores. -/
inductive Layer where
  | linear (weight : List Rat)
  | nonLinear (weight : List Rat)
deriving DecidableEq

/-- `layer.weight if isinstance(layer, nn.Linear) else torch.tensor([0])`. -/
def selectedTensor : Layer → List Rat
  | .linear w => w
  | .nonLinear _ => [0]

/-- `torch.sum(torch.eq(weight, 0)).item()`: the number of entries equal
to zero. -/
def countEqZero (t : List Rat) : Nat :=
  t.countP fun x => decide (x = 0)

/-- `torch.count_nonzero(weight).item()`: the number of nonzero
entries. -/
def countNonzero (t : List Rat) : Nat :=
  t.countP fun x => decide (x ≠ 0)

/-- Notebook variable `zero_weights`. -/
def zero_weights (network : List Layer) : Nat :=
  (network.map fun l => countEqZero (selectedTensor l)).sum

/-- Notebook variable `nonzero_weights`. -/
def nonzero_weights (network : List Layer) : Nat :=
  (network.map fun l => countNonzero (selectedTensor l)).sum

/-- The printed total sparsity
`zero_weights/(zero_weights+nonzero_weights)`. -/
def total_sparsity (network : List Layer) : Rat :=
  (zero_weights network : Rat)
    / ((zero_weights network : Rat) + (nonzero_weights network : Rat))

/-- Zero entries of the Linear layers' weights only. -/
def linearZeroCount (network : List Layer) : Nat :=
  (network.map fun l =>
    match l with
    | .linear w => countEqZero w
    | .nonLinear _ => 0).sum

/-- Nonzero entries of the Linear layers' weights only. -/
def linearNonzeroCount (network : List Layer) : Nat :=
  (network.map fun l =>
    match l with
    | .linear w => countNonzero w
    | .nonLinear _ => 0).sum

/-- The number of non-Linear layers of the network. -/
def nonLinearCount (network : List Layer) : Nat :=
  network.countP fun l =>
    match l with
    | .nonLinear _ => true
    | .linear _ => false

end Notebook

/-- C3: the notebook's single evaluation call passes exactly the model
path, the environment constructor, the environment id, an episode count
of 5, the run name, the model class, the notebook's device and
exploration epsilon 0.05, and the mean of the returned episodic returns
is their sum divided by their length, 484 on the recorded run. -/
theorem notebook_eval_call_args :
    Notebook.evaluateCall true
      = ⟨"models/0.5_sparsity_dqn.cleanrl_model", "make_env",
         "SpaceInvadersNoFrameskip-v4", 5, "dqn_eval", "QNetwork",
         Notebook.Device.cuda, 0.05⟩
    ∧ Notebook.evaluateCall false
      = ⟨"models/0.5_sparsity_dqn.cleanrl_model", "make_env",
         "SpaceInvadersNoFrameskip-v4", 5, "dqn_eval", "QNetwork",
         Notebook.Device.cpu, 0.05⟩
    ∧ Notebook.mean_episodic_return Notebook.episodic_returns = 484 := by
  refine ⟨rfl, rfl, ?_⟩
  norm_num [Notebook.mean_episodic_return, Notebook.episodic_returns]

theorem zero_weights_cons (l : Notebook.Layer) (rest : List Notebook.Layer) :
    Notebook.zero_weights (l :: rest)
      = Notebook.countEqZero (Notebook.selectedTensor l)
        + Notebook.zero_weights rest := by
  simp [Notebook.zero_weights]

theorem nonzero_weights_cons (l : Notebook.Layer) (rest : List Notebook.Layer) :
    Notebook.nonzero_weights (l :: rest)
      = Notebook.countNonzero (Notebook.selectedTensor l)
        + Notebook.nonzero_weights rest := by
  simp [Notebook.nonzero_weights]

theorem selectedTensor_linear (w : List Rat) :
    Notebook.selectedTensor (.linear w) = w := rfl

theorem selectedTensor_nonLinear (w : List Rat) :
    Notebook.selectedTensor (.nonLinear w) = [0] := rfl

theorem countEqZero_placeholder : Notebook.countEqZero [0] = 1 := by decide

theorem countNonzero_placeholder : Notebook.countNonzero [0] = 0 := by decide

theorem linearZeroCount_cons_linear (w : List Rat)
    (rest : List Notebook.Layer) :
    Notebook.linearZeroCount (.linear w :: rest)
      = Notebook.countEqZero w + Notebook.linearZeroCount rest := by
  simp [Notebook.linearZeroCount]

theorem linearZeroCount_cons_nonLinear (w : List Rat)
    (rest : List Notebook.Layer) :
    Notebook.linearZeroCount (.nonLinear w :: rest)
      = Notebook.linearZeroCount rest := by
  simp [Notebook.linearZeroCount]

theorem linearNonzeroCount_cons_linear (w : List Rat)
    (rest : List Notebook.Layer) :
    Notebook.linearNonzeroCount (.linear w :: rest)
      = Notebook.countNonzero w + Notebook.linearNonzeroCount rest := by
  simp [Notebook.linearNonzeroCount]

theorem linearNonzeroCount_cons_nonLinear (w : List Rat)
    (rest : List Notebook.Layer) :
    Notebook.linearNonzeroCount (.nonLinear w :: rest)
      = Notebook.linearNonzeroCount rest := by
  simp [Notebook.linearNonzeroCount]

theorem nonLinearCount_cons_linear (w : List Rat)
    (rest : List Notebook.Layer) :
    Notebook.nonLinearCount (.linear w :: rest)
      = Notebook.nonLinearCount rest := by
  simp [Notebook.nonLinearCount, List.countP_cons]

theorem nonLinearCount_cons_nonLinear (w : List Rat)
    (rest : List Notebook.Layer) :
    Notebook.nonLinearCount (.nonLinear w :: rest)
      = Notebook.nonLinearCount rest + 1 := by
  simp [Notebook.nonLinearCount, List.countP_cons]

theorem counts_split (network : List Notebook.Layer) :
    Notebook.zero_weights network
        = Notebook.linearZeroCount network + Notebook.nonLinearCount network
    ∧ Notebook.nonzero_weights network = Notebook.linearNonzeroCount network := by
  induction network with
  | nil => exact ⟨rfl, rfl⟩
  | cons l rest ih =>
    obtain ⟨ih1, ih2⟩ := ih
    cases l with
    | linear w =>
        refine ⟨?_, ?_⟩
        · rw [zero_weights_cons, selectedTensor_linear, ih1,
            linearZeroCount_cons_linear, nonLinearCount_cons_linear]
          omega
        · rw [nonzero_weights_cons, selectedTensor_linear, ih2,
            linearNonzeroCount_cons_linear]
    | nonLinear w =>
        refine ⟨?_, ?_⟩
        · rw [zero_weights_cons, selectedTensor_nonLinear,
            countEqZero_placeholder, ih1, linearZeroCount_cons_nonLinear,
            nonLinearCount_cons_nonLinear]
          omega
        · rw [nonzero_weights_cons, selectedTensor_nonLinear,
            countNonzero_placeholder, ih2, linearNonzeroCount_cons_nonLinear]
          omega

/-- C8: the sparsity cell counts weights only from Linear layers: on
any network, its zero count equals the zeros of the Linear weights plus
one spurious zero per non-Linear layer, its nonzero count equals the
nonzeros of the Linear weights, and the printed total sparsity is the
corresponding ratio. -/
theorem sparsity_counts_linear_only (network : List Notebook.Layer) :
    Notebook.zero_weights network
        = Notebook.linearZeroCount network + Notebook.nonLinearCount network
    ∧ Notebook.nonzero_weights network = Notebook.linearNonzeroCount network
    ∧ Notebook.total_sparsity network
        = ((Notebook.linearZeroCount network
              + Notebook.nonLinearCount network : Nat) : Rat)
          / (((Notebook.linearZeroCount network
              + Notebook.nonLinearCount network : Nat) : Rat)
            + (Notebook.linearNonzeroCount network : Rat)) := by
  obtain ⟨h1, h2⟩ := counts_split network
  refine ⟨h1, h2, ?_⟩
  rw [Notebook.total_sparsity, h1, h2]

/-- C8 witness: on the network consisting of one Linear layer with
weights (0, 1, 0) and one non-Linear layer, the cell counts three zeros
(two real, one spurious), one nonzero, and a sparsity of 3/4. -/
theorem sparsity_counts_witness :
    (Notebook.zero_weights [Notebook.Layer.linear [0, 1, 0],
        Notebook.Layer.nonLinear [5, 7]]
      = Notebook.linearZeroCount [Notebook.Layer.linear [0, 1, 0],
          Notebook.Layer.nonLinear [5, 7]]
        + Notebook.nonLinearCount [Notebook.Layer.linear [0, 1, 0],
            Notebook.Layer.nonLinear [5, 7]])
    ∧ Notebook.zero_weights [Notebook.Layer.linear [0, 1, 0],
        Notebook.Layer.nonLinear [5, 7]] = 3
    ∧ Notebook.nonzero_weights [Notebook.Layer.linear [0, 1, 0],
        Notebook.Layer.nonLinear [5, 7]] = 1 :=
  ⟨(sparsity_counts_linear_only [Notebook.Layer.linear [0, 1, 0],
      Notebook.Layer.nonLinear [5, 7]]).1, by decide, by decide⟩
